import Mathlib

/-!
# Shallow embedding of the pyviewarr anywidget frontend

This file embeds the widget logic of `js/widget.ts` (the full variant with
bidirectional viewer-state synchronization, slice navigation and the image
pump) and proves the specification's testable properties against it.

Modelling choices:
* JavaScript numbers are modelled as rationals (`ℚ`); the properties at stake
  are branch conditions (absolute-tolerance comparisons, degeneracy tests,
  wrap-around index arithmetic), not float rounding.
* The host model (`model.get` / `model.set` / `model.save_changes`) is a
  record `ModelState`; `model.set` is a functional field update and
  `model.save_changes` invocations are counted.
* Calls into the external viewer engine (`setContrast`, `setBias`,
  `setStretchMode`, `setViewBounds`, `setImageData`, `clearCallbacks`,
  `destroyViewer`) are recorded as explicit events rather than executed.
* The closure-captured flags `viewerReady`, `isDisposed`, `updatingFromViewer`
  form the record `SyncState`.
* A `DataView` is either absent (`none`, covering the falsy check
  `if (dataView && ...)`) or carries its byte length; buffer contents are
  irrelevant to the claims.
-/

/-- The host model: the traitlet-backed key-value store described by the
`WidgetModel` interface of `js/widget.ts`.  Field names follow the model
keys (`_sync_from_viewer` is `sync_from_viewer`, `_needs_repaint` is
`needs_repaint`, `data` is the byte length of the `DataView` or `none`). -/
structure ModelState where
  contrast : ℚ
  bias : ℚ
  stretch_mode : String
  xlim : ℚ × ℚ
  ylim : ℚ × ℚ
  colormap : String
  colormap_reversed : Bool
  vmin : ℚ
  vmax : ℚ
  sync_from_viewer : Bool
  needs_repaint : Bool
  data : Option ℕ
  image_width : ℤ
  image_height : ℤ
  dtype : String
  shape : List ℤ
  current_slice_indices : List ℤ
  deriving DecidableEq, Repr

/-- The state reported by the viewer engine to `handleViewerStateChange`
(the `ViewerState` type imported from `viewarr`).  The bounds pairs are
optional: the code guards on `if (state.xlim && state.ylim)`, so an absent
(falsy) pair is representable. -/
structure ViewerState where
  contrast : ℚ
  bias : ℚ
  stretchMode : String
  xlim : Option (ℚ × ℚ)
  ylim : Option (ℚ × ℚ)
  colormap : String
  colormapReversed : Bool
  vmin : ℚ
  vmax : ℚ
  deriving DecidableEq, Repr

/-- The closure-captured widget flags of `render`:
`let viewerReady = false; let isDisposed = false;
let updatingFromViewer = false;`. -/
structure SyncState where
  viewerReady : Bool
  isDisposed : Bool
  updatingFromViewer : Bool
  deriving DecidableEq, Repr

/-- Outcome of one `handleViewerStateChange` invocation: the flags and model
afterwards, the number of `model.save_changes()` calls, and whether a
simulated `model.set` exception escaped the `try` block (the guard is still
restored by the `finally`; `threw` only records that the body aborted
early). -/
structure SyncOutcome where
  flags : SyncState
  model : ModelState
  commits : ℕ
  threw : Bool
  deriving DecidableEq, Repr

/-- `Math.abs` on the rational model of JS numbers, written executably. -/
def mathAbs (x : ℚ) : ℚ := if x < 0 then -x else x

/-- One guarded `model.set` of the Viewer→Model sync body: if `cond` holds on
the current model the field update `upd` runs and `changed` becomes true.
`throws k` simulates the k-th `model.set` call raising; the body then aborts
(`Except.error`) carrying the partially updated model, mirroring an exception
escaping the `try` block of `handleViewerStateChange`. -/
def condSet (throws : ℕ → Bool) (k : ℕ) (cond : ModelState → Bool)
    (upd : ModelState → ModelState) (acc : ModelState × Bool) :
    Except ModelState (ModelState × Bool) :=
  if cond acc.1 then
    if throws k then .error acc.1 else .ok (upd acc.1, true)
  else .ok acc

/-- Change condition for `contrast` at current model value `x`:
`Math.abs(model.get("contrast") - state.contrast) > 0.001`. -/
def cContrast (st : ViewerState) (x : ℚ) : Bool :=
  decide (mathAbs (x - st.contrast) > 1/1000)

/-- Change condition for `bias` at current model value `x` (tolerance
0.001). -/
def cBias (st : ViewerState) (x : ℚ) : Bool :=
  decide (mathAbs (x - st.bias) > 1/1000)

/-- Change condition for `stretch_mode` at current model value `s` (exact
inequality). -/
def cStretch (st : ViewerState) (s : String) : Bool :=
  s != st.stretchMode

/-- Change condition for the `xlim` pair at current model value `p`: either
coordinate differs by more than 0.5 from the reported pair `xl`. -/
def cXlim (xl p : ℚ × ℚ) : Bool :=
  decide (mathAbs (p.1 - xl.1) > 1/2) ||
  decide (mathAbs (p.2 - xl.2) > 1/2)

/-- Change condition for the `ylim` pair at current model value `p`
(tolerance 0.5 per coordinate). -/
def cYlim (yl p : ℚ × ℚ) : Bool :=
  decide (mathAbs (p.1 - yl.1) > 1/2) ||
  decide (mathAbs (p.2 - yl.2) > 1/2)

/-- Change condition for `colormap` at current model value `s` (exact
inequality). -/
def cColormap (st : ViewerState) (s : String) : Bool :=
  s != st.colormap

/-- Change condition for `colormap_reversed` at current model value `b`
(exact inequality). -/
def cReversed (st : ViewerState) (b : Bool) : Bool :=
  b != st.colormapReversed

/-- Change condition for `vmin` at current model value `x` (tolerance
1e-10). -/
def cVmin (st : ViewerState) (x : ℚ) : Bool :=
  decide (mathAbs (x - st.vmin) > 1/10^10)

/-- Change condition for `vmax` at current model value `x` (tolerance
1e-10). -/
def cVmax (st : ViewerState) (x : ℚ) : Bool :=
  decide (mathAbs (x - st.vmax) > 1/10^10)

/-- The `try` body of `handleViewerStateChange` (js/widget.ts, full variant,
lines 124–179): tolerance-gated writes of contrast (±0.001), bias (±0.001),
stretch mode (exact), the bounds pairs (±0.5 per coordinate, only when the
reported state carries both `xlim` and `ylim`, each pair written whole when
either coordinate exceeds tolerance), colormap and colormap-reversed (exact),
vmin and vmax (±1e-10); then, if anything changed, the echo-marker write
`model.set("_sync_from_viewer", true)` followed by one `model.save_changes()`.
Returns the final model and the `changed` flag. -/
def hvscBody (throws : ℕ → Bool) (st : ViewerState) (m : ModelState) :
    Except ModelState (ModelState × Bool) := do
  let a ← condSet throws 0 (fun m => cContrast st m.contrast)
      (fun m => {m with contrast := st.contrast}) (m, false)
  let a ← condSet throws 1 (fun m => cBias st m.bias)
      (fun m => {m with bias := st.bias}) a
  let a ← condSet throws 2 (fun m => cStretch st m.stretch_mode)
      (fun m => {m with stretch_mode := st.stretchMode}) a
  let a ← (match st.xlim, st.ylim with
    | some xl, some yl => do
        let a ← condSet throws 3 (fun m => cXlim xl m.xlim)
            (fun m => {m with xlim := xl}) a
        condSet throws 4 (fun m => cYlim yl m.ylim)
            (fun m => {m with ylim := yl}) a
    | _, _ => pure a)
  let a ← condSet throws 5 (fun m => cColormap st m.colormap)
      (fun m => {m with colormap := st.colormap}) a
  let a ← condSet throws 6 (fun m => cReversed st m.colormap_reversed)
      (fun m => {m with colormap_reversed := st.colormapReversed}) a
  let a ← condSet throws 7 (fun m => cVmin st m.vmin)
      (fun m => {m with vmin := st.vmin}) a
  let a ← condSet throws 8 (fun m => cVmax st m.vmax)
      (fun m => {m with vmax := st.vmax}) a
  if a.2 then
    if throws 9 then .error a.1
    else .ok ({a.1 with sync_from_viewer := true}, true)
  else .ok a

/-- `handleViewerStateChange` with a throw oracle for the `model.set` calls:
no-ops when not ready, disposed, or the in-flight guard is already set;
otherwise sets `updatingFromViewer`, runs the `try` body, and — whether the
body finished or threw — resets the guard (the `finally` block).  One commit
(`model.save_changes()`) happens exactly when the body finished with
`changed` true. -/
def handleViewerStateChangeT (throws : ℕ → Bool) (flags : SyncState)
    (st : ViewerState) (m : ModelState) : SyncOutcome :=
  if !flags.viewerReady || flags.isDisposed || flags.updatingFromViewer then
    ⟨flags, m, 0, false⟩
  else
    let flags1 := {flags with updatingFromViewer := true}
    match hvscBody throws st m with
    | .error m' => ⟨{flags1 with updatingFromViewer := false}, m', 0, true⟩
    | .ok (m', changed) =>
        ⟨{flags1 with updatingFromViewer := false}, m',
          if changed then 1 else 0, false⟩

/-- `handleViewerStateChange` on the normal (non-throwing) path. -/
def handleViewerStateChange (flags : SyncState) (st : ViewerState)
    (m : ModelState) : SyncOutcome :=
  handleViewerStateChangeT (fun _ => false) flags st m

/-- A call into the viewer engine's setter interface.  The widget code only
ever emits the first four (`setContrast`, `setBias`, `setStretchMode`,
`setViewBounds`); the remaining constructors exist because the viewer-engine
interface also offers colormap / colormap-reversed / value-range setters, so
that "property p is pushed" is expressible for every synchronized property. -/
inductive PushOp where
  | contrast (v : ℚ)
  | bias (v : ℚ)
  | stretchMode (s : String)
  | viewBounds (xmin xmax ymin ymax : ℚ)
  | colormap (s : String)
  | colormapReversed (b : Bool)
  | valueRange (lo hi : ℚ)
  deriving DecidableEq, Repr

/-- `applyModelToViewer` (js/widget.ts, full variant, lines 219–235): when
ready and not disposed, pushes contrast, bias and stretch mode, then pushes
the bounds only when both pairs are non-degenerate
(`xlim[0] !== xlim[1] && ylim[0] !== ylim[1]`).  Returns the list of viewer
setter calls made. -/
def applyModelToViewer (flags : SyncState) (m : ModelState) : List PushOp :=
  if !flags.viewerReady || flags.isDisposed then []
  else
    [PushOp.contrast m.contrast, PushOp.bias m.bias,
     PushOp.stretchMode m.stretch_mode] ++
    (if m.xlim.1 ≠ m.xlim.2 ∧ m.ylim.1 ≠ m.ylim.2 then
       [PushOp.viewBounds m.xlim.1 m.xlim.2 m.ylim.1 m.ylim.2]
     else [])

/-- `handlePropertyChange` (js/widget.ts, full variant, lines 388–395): the
Model→Viewer change handler.  If the in-flight guard or the echo marker
`_sync_from_viewer` is set, it resets the echo marker and pushes nothing;
otherwise it runs `applyModelToViewer`. -/
def handlePropertyChange (flags : SyncState) (m : ModelState) :
    ModelState × List PushOp :=
  if flags.updatingFromViewer || m.sync_from_viewer then
    ({m with sync_from_viewer := false}, [])
  else
    (m, applyModelToViewer flags m)

/-- One `setImageData` call forwarded to the viewer: the byte length of the
copied buffer, the image dimensions and the dtype tag. -/
structure ImageCall where
  byteLength : ℕ
  width : ℤ
  height : ℤ
  dtype : String
  deriving DecidableEq, Repr

/-- `updateImage` (js/widget.ts, full variant, lines 240–259): no-op when not
ready, disposed, or `_needs_repaint` is false; otherwise clears
`_needs_repaint` first and forwards the buffer to `setImageData` only when
the `DataView` is present with positive byte length and both dimensions are
positive. -/
def updateImage (flags : SyncState) (m : ModelState) :
    ModelState × Option ImageCall :=
  if !flags.viewerReady || flags.isDisposed then (m, none)
  else if !m.needs_repaint then (m, none)
  else
    let m' := {m with needs_repaint := false}
    match m.data with
    | none => (m', none)
    | some len =>
        if 0 < len ∧ 0 < m.image_width ∧ 0 < m.image_height then
          (m', some ⟨len, m.image_width, m.image_height, m.dtype⟩)
        else (m', none)

/-- `navigateSlice` (js/widget.ts, full variant, lines 327–345): computes
`indices[axis] + delta`, wraps below 0 to `axisSize − 1` and at or above
`axisSize` to 0, and — only when the result differs from the current index —
replaces the index vector and commits once.  The Boolean records whether
`model.save_changes()` ran. -/
def navigateSlice (shape indices : List ℤ) (axis : ℕ) (delta : ℤ) :
    List ℤ × Bool :=
  let axisSize := shape.getD axis 0
  let cur := indices.getD axis 0
  let n0 := cur + delta
  let newIndex := if n0 < 0 then axisSize - 1 else if n0 ≥ axisSize then 0 else n0
  if newIndex ≠ cur then (indices.set axis newIndex, true) else (indices, false)

/-- State for the dispose cleanup: the widget flags plus counters of how many
times `clearCallbacks` and `destroyViewer` have been invoked. -/
structure DisposeLog where
  flags : SyncState
  clears : ℕ
  destroys : ℕ
  deriving DecidableEq, Repr

/-- The cleanup closure returned by `render` (js/widget.ts, full variant,
lines 404–410): sets `isDisposed` and, whenever `viewerReady` is true, calls
`clearCallbacks` and `destroyViewer`.  Note the code checks only
`viewerReady`, never `isDisposed`, before destroying. -/
def dispose (s : DisposeLog) : DisposeLog :=
  if s.flags.viewerReady then
    { flags := {s.flags with isDisposed := true},
      clears := s.clears + 1, destroys := s.destroys + 1 }
  else
    { flags := {s.flags with isDisposed := true},
      clears := s.clears, destroys := s.destroys }

/-- Phase of the attach/create promise chain of `render`:
waiting for DOM connection, between the first and second `.then`
continuation, or settled (second continuation or `.catch` ran). -/
inductive LifePhase where
  | awaitingAttachment
  | creating
  | settled
  deriving DecidableEq, Repr

/-- Lifecycle flags plus chain phase for the attach/create chain. -/
structure LifeState where
  phase : LifePhase
  viewerReady : Bool
  isDisposed : Bool
  deriving DecidableEq, Repr

/-- Events driving the attach/create chain: the DOM-connection wait resolves
(first `.then` runs), viewer creation resolves (second `.then` runs — this
also covers the case where the first continuation returned early, since the
second `.then` still fires on the undefined result), creation fails
(`.catch` runs), or the cleanup closure is invoked. -/
inductive LifeEvent where
  | domConnected
  | createResolved
  | createFailed
  | disposeCall
  deriving DecidableEq, Repr

/-- One step of the attach/create chain (js/widget.ts, full variant, lines
350–368 and 404–410).  Both `.then` continuations check `isDisposed` first:
the first skips `createViewer` (the chain still continues), the second skips
setting `viewerReady`.  `disposeCall` sets `isDisposed` (the destroy side is
modelled by `dispose`). -/
def lifeStep (s : LifeState) (e : LifeEvent) : LifeState :=
  match e with
  | .disposeCall => {s with isDisposed := true}
  | .domConnected =>
      match s.phase with
      | .awaitingAttachment => {s with phase := .creating}
      | _ => s
  | .createResolved =>
      match s.phase with
      | .creating =>
          if s.isDisposed then {s with phase := .settled}
          else {s with phase := .settled, viewerReady := true}
      | _ => s
  | .createFailed =>
      match s.phase with
      | .creating => {s with phase := .settled}
      | _ => s

/-- Run the attach/create chain over a sequence of events. -/
def lifeRun (s : LifeState) : List LifeEvent → LifeState
  | [] => s
  | e :: es => lifeRun (lifeStep s e) es

/-- Derived (proof-side) predicate: some synchronized property of the
reported state `st` (with bounds pairs `xl`, `yl`) exceeds its tolerance
against the model `m` — the disjunction of the nine per-property change
conditions of `handleViewerStateChange`.  Reading every condition off the
unmodified model is legitimate because each write touches only the field its
own condition reads; the grouping mirrors the proof-side segmentation. -/
def syncChanged (st : ViewerState) (xl yl : ℚ × ℚ) (m : ModelState) : Bool :=
  ((cContrast st m.contrast || (cBias st m.bias || cStretch st m.stretch_mode)) ||
    (cXlim xl m.xlim || cYlim yl m.ylim)) ||
  (cColormap st m.colormap ||
    (cReversed st m.colormap_reversed || (cVmin st m.vmin || cVmax st m.vmax)))

/-- Derived (proof-side) closed form of the model after the Viewer→Model
sync body: each synchronized field is overwritten exactly when its own
tolerance condition fires, and the echo marker is set exactly when some
condition fired. -/
def gatedModel (st : ViewerState) (xl yl : ℚ × ℚ) (m : ModelState) :
    ModelState :=
  let m1 := {m with
    contrast := if cContrast st m.contrast then st.contrast else m.contrast,
    bias := if cBias st m.bias then st.bias else m.bias,
    stretch_mode :=
      if cStretch st m.stretch_mode then st.stretchMode else m.stretch_mode}
  let m2 := {m1 with
    xlim := if cXlim xl m1.xlim then xl else m1.xlim,
    ylim := if cYlim yl m1.ylim then yl else m1.ylim}
  let m3 := {m2 with
    colormap := if cColormap st m2.colormap then st.colormap else m2.colormap,
    colormap_reversed :=
      if cReversed st m2.colormap_reversed then st.colormapReversed
      else m2.colormap_reversed,
    vmin := if cVmin st m2.vmin then st.vmin else m2.vmin,
    vmax := if cVmax st m2.vmax then st.vmax else m2.vmax}
  if syncChanged st xl yl m then {m3 with sync_from_viewer := true} else m3

/-- Proof-side segment of the non-throwing sync body: contrast, bias,
stretch mode. -/
def segA (st : ViewerState) (acc : ModelState × Bool) :
    Except ModelState (ModelState × Bool) := do
  let a ← condSet (fun _ => false) 0 (fun m => cContrast st m.contrast)
      (fun m => {m with contrast := st.contrast}) acc
  let a ← condSet (fun _ => false) 1 (fun m => cBias st m.bias)
      (fun m => {m with bias := st.bias}) a
  condSet (fun _ => false) 2 (fun m => cStretch st m.stretch_mode)
      (fun m => {m with stretch_mode := st.stretchMode}) a

/-- Proof-side segment of the non-throwing sync body: the bounds pairs. -/
def segB (st : ViewerState) (acc : ModelState × Bool) :
    Except ModelState (ModelState × Bool) :=
  match st.xlim, st.ylim with
  | some xl, some yl => do
      let a ← condSet (fun _ => false) 3 (fun m => cXlim xl m.xlim)
          (fun m => {m with xlim := xl}) acc
      condSet (fun _ => false) 4 (fun m => cYlim yl m.ylim)
          (fun m => {m with ylim := yl}) a
  | _, _ => pure acc

/-- Proof-side segment of the non-throwing sync body: colormap,
colormap-reversed, vmin, vmax. -/
def segC (st : ViewerState) (acc : ModelState × Bool) :
    Except ModelState (ModelState × Bool) := do
  let a ← condSet (fun _ => false) 5 (fun m => cColormap st m.colormap)
      (fun m => {m with colormap := st.colormap}) acc
  let a ← condSet (fun _ => false) 6 (fun m => cReversed st m.colormap_reversed)
      (fun m => {m with colormap_reversed := st.colormapReversed}) a
  let a ← condSet (fun _ => false) 7 (fun m => cVmin st m.vmin)
      (fun m => {m with vmin := st.vmin}) a
  condSet (fun _ => false) 8 (fun m => cVmax st m.vmax)
      (fun m => {m with vmax := st.vmax}) a

/-- Proof-side final segment: the echo-marker write and commit gate. -/
def segFin (acc : ModelState × Bool) :
    Except ModelState (ModelState × Bool) :=
  if acc.2 then .ok ({acc.1 with sync_from_viewer := true}, true)
  else .ok acc

/-- Derived: the change disjunction when the reported state omits a bounds
pair (the bounds comparisons are skipped entirely). -/
def syncChangedNB (st : ViewerState) (m : ModelState) : Bool :=
  (cContrast st m.contrast || (cBias st m.bias || cStretch st m.stretch_mode)) ||
  (cColormap st m.colormap ||
    (cReversed st m.colormap_reversed || (cVmin st m.vmin || cVmax st m.vmax)))

/-- Derived: closed form of the model after the sync body when the reported
state omits a bounds pair — the bounds fields are left untouched. -/
def gatedModelNB (st : ViewerState) (m : ModelState) : ModelState :=
  let m1 := {m with
    contrast := if cContrast st m.contrast then st.contrast else m.contrast,
    bias := if cBias st m.bias then st.bias else m.bias,
    stretch_mode :=
      if cStretch st m.stretch_mode then st.stretchMode else m.stretch_mode}
  let m3 := {m1 with
    colormap := if cColormap st m1.colormap then st.colormap else m1.colormap,
    colormap_reversed :=
      if cReversed st m1.colormap_reversed then st.colormapReversed
      else m1.colormap_reversed,
    vmin := if cVmin st m1.vmin then st.vmin else m1.vmin,
    vmax := if cVmax st m1.vmax then st.vmax else m1.vmax}
  if syncChangedNB st m then {m3 with sync_from_viewer := true} else m3

/-- A concrete host-model state used by witnesses. -/
def mEx : ModelState :=
  ⟨1/2, 1/2, "linear", (0, 100), (0, 100), "grays", false, 0, 1, false,
    false, none, 0, 0, "f32", [], []⟩

/-- A concrete reported viewer state whose stretch mode differs from
`mEx`. -/
def stEx : ViewerState :=
  ⟨1/2, 1/2, "log", some (0, 100), some (0, 100), "grays", false, 0, 1⟩

/-- A concrete reported viewer state with an absent `xlim` pair. -/
def stExNB : ViewerState :=
  ⟨1/2, 1/2, "linear", none, some (0, 100), "grays", false, 0, 1⟩

/-- The concrete image-pump state of the specification scenario: dirty flag
set, a 4-byte buffer, width 0, height 1. -/
def m6 : ModelState :=
  {mEx with needs_repaint := true, data := some 4, image_height := 1}

/-- A concrete dispose-log state: the widget reached readiness and nothing
has been destroyed yet. -/
def d0 : DisposeLog := ⟨⟨true, false, false⟩, 0, 0⟩

theorem mathAbs_eq_abs (x : ℚ) : mathAbs x = |x| := by
  unfold mathAbs
  rcases lt_or_le x 0 with h | h
  · rw [if_pos h, abs_of_neg h]
  · rw [if_neg (not_lt.mpr h), abs_of_nonneg h]

theorem condSet_nothrow (k : ℕ) (cond : ModelState → Bool)
    (upd : ModelState → ModelState) (acc : ModelState × Bool) :
    condSet (fun _ => false) k cond upd acc =
      .ok (if cond acc.1 then (upd acc.1, true) else acc) := by
  unfold condSet
  split
  · rfl
  · simp

theorem exceptBind_ok {ε α β : Type} (a : α) (f : α → Except ε β) :
    (Except.ok a : Except ε α) >>= f = f a := rfl

/-- The non-throwing sync body is the composition of the proof-side
segments. -/
theorem hvscBody_eq_segs (st : ViewerState) (m : ModelState) :
    hvscBody (fun _ => false) st m =
      segA st (m, false) >>= segB st >>= segC st >>= segFin := by
  simp only [hvscBody, segA, segB, segC, segFin, bind_assoc]
  rfl

/-- Closed form of `segA` on an arbitrary accumulator. -/
theorem segA_closed (st : ViewerState) (acc : ModelState × Bool) :
    segA st acc =
      .ok ({acc.1 with
              contrast :=
                if cContrast st acc.1.contrast then st.contrast
                else acc.1.contrast,
              bias := if cBias st acc.1.bias then st.bias else acc.1.bias,
              stretch_mode :=
                if cStretch st acc.1.stretch_mode then st.stretchMode
                else acc.1.stretch_mode},
            acc.2 ||
              (cContrast st acc.1.contrast ||
                (cBias st acc.1.bias || cStretch st acc.1.stretch_mode))) := by
  obtain ⟨m, b⟩ := acc
  by_cases h1 : cContrast st m.contrast = true <;>
  by_cases h2 : cBias st m.bias = true <;>
  by_cases h3 : cStretch st m.stretch_mode = true <;>
  simp [segA, condSet_nothrow, exceptBind_ok, h1, h2, h3]

/-- Closed form of `segB` when both bounds pairs are reported. -/
theorem segB_closed (st : ViewerState) (acc : ModelState × Bool)
    (xl yl : ℚ × ℚ) (hx : st.xlim = some xl) (hy : st.ylim = some yl) :
    segB st acc =
      .ok ({acc.1 with
              xlim := if cXlim xl acc.1.xlim then xl else acc.1.xlim,
              ylim := if cYlim yl acc.1.ylim then yl else acc.1.ylim},
            acc.2 || (cXlim xl acc.1.xlim || cYlim yl acc.1.ylim)) := by
  obtain ⟨m, b⟩ := acc
  rw [segB, hx, hy]
  by_cases h1 : cXlim xl m.xlim = true <;>
  by_cases h2 : cYlim yl m.ylim = true <;>
  simp [condSet_nothrow, exceptBind_ok, h1, h2]

/-- `segB` is the identity when either bounds pair is absent from the
reported state. -/
theorem segB_absent (st : ViewerState) (acc : ModelState × Bool)
    (h : st.xlim = none ∨ st.ylim = none) :
    segB st acc = .ok acc := by
  rw [segB]
  rcases h with h | h <;> rw [h]
  · rfl
  · cases st.xlim <;> rfl

/-- Closed form of `segC` on an arbitrary accumulator. -/
theorem segC_closed (st : ViewerState) (acc : ModelState × Bool) :
    segC st acc =
      .ok ({acc.1 with
              colormap :=
                if cColormap st acc.1.colormap then st.colormap
                else acc.1.colormap,
              colormap_reversed :=
                if cReversed st acc.1.colormap_reversed then
                  st.colormapReversed
                else acc.1.colormap_reversed,
              vmin := if cVmin st acc.1.vmin then st.vmin else acc.1.vmin,
              vmax := if cVmax st acc.1.vmax then st.vmax else acc.1.vmax},
            acc.2 ||
              (cColormap st acc.1.colormap ||
                (cReversed st acc.1.colormap_reversed ||
                  (cVmin st acc.1.vmin || cVmax st acc.1.vmax)))) := by
  obtain ⟨m, b⟩ := acc
  by_cases h1 : cColormap st m.colormap = true <;>
  by_cases h2 : cReversed st m.colormap_reversed = true <;>
  by_cases h3 : cVmin st m.vmin = true <;>
  by_cases h4 : cVmax st m.vmax = true <;>
  simp [segC, condSet_nothrow, exceptBind_ok, h1, h2, h3, h4]

/-- Closed form of the final segment. -/
theorem segFin_closed (acc : ModelState × Bool) :
    segFin acc =
      .ok (if acc.2 then {acc.1 with sync_from_viewer := true} else acc.1,
           acc.2) := by
  unfold segFin
  rcases acc with ⟨m, b⟩
  cases b <;> simp

/-- Master characterization of the non-throwing sync body when the reported
state carries both bounds pairs. -/
theorem hvscBody_closed (st : ViewerState) (m : ModelState) (xl yl : ℚ × ℚ)
    (hx : st.xlim = some xl) (hy : st.ylim = some yl) :
    hvscBody (fun _ => false) st m =
      .ok (gatedModel st xl yl m, syncChanged st xl yl m) := by
  rw [hvscBody_eq_segs, segA_closed, exceptBind_ok,
    segB_closed st _ xl yl hx hy, exceptBind_ok, segC_closed, exceptBind_ok,
    segFin_closed]
  rfl

/-- Master characterization of the non-throwing sync body when a bounds pair
is missing from the reported state. -/
theorem hvscBody_closed_nb (st : ViewerState) (m : ModelState)
    (h : st.xlim = none ∨ st.ylim = none) :
    hvscBody (fun _ => false) st m =
      .ok (gatedModelNB st m, syncChangedNB st m) := by
  rw [hvscBody_eq_segs, segA_closed, exceptBind_ok, segB_absent st _ h,
    exceptBind_ok, segC_closed, exceptBind_ok, segFin_closed]
  rfl

theorem gatedModel_contrast (st : ViewerState) (xl yl : ℚ × ℚ)
    (m : ModelState) :
    (gatedModel st xl yl m).contrast =
      if cContrast st m.contrast then st.contrast else m.contrast := by
  simp only [gatedModel]
  split <;> rfl

theorem gatedModel_bias (st : ViewerState) (xl yl : ℚ × ℚ) (m : ModelState) :
    (gatedModel st xl yl m).bias =
      if cBias st m.bias then st.bias else m.bias := by
  simp only [gatedModel]
  split <;> rfl

theorem gatedModel_stretch (st : ViewerState) (xl yl : ℚ × ℚ)
    (m : ModelState) :
    (gatedModel st xl yl m).stretch_mode =
      if cStretch st m.stretch_mode then st.stretchMode
      else m.stretch_mode := by
  simp only [gatedModel]
  split <;> rfl

theorem gatedModel_xlim (st : ViewerState) (xl yl : ℚ × ℚ) (m : ModelState) :
    (gatedModel st xl yl m).xlim =
      if cXlim xl m.xlim then xl else m.xlim := by
  simp only [gatedModel]
  split <;> rfl

theorem gatedModel_ylim (st : ViewerState) (xl yl : ℚ × ℚ) (m : ModelState) :
    (gatedModel st xl yl m).ylim =
      if cYlim yl m.ylim then yl else m.ylim := by
  simp only [gatedModel]
  split <;> rfl

theorem gatedModel_colormap (st : ViewerState) (xl yl : ℚ × ℚ)
    (m : ModelState) :
    (gatedModel st xl yl m).colormap =
      if cColormap st m.colormap then st.colormap else m.colormap := by
  simp only [gatedModel]
  split <;> rfl

theorem gatedModel_reversed (st : ViewerState) (xl yl : ℚ × ℚ)
    (m : ModelState) :
    (gatedModel st xl yl m).colormap_reversed =
      if cReversed st m.colormap_reversed then st.colormapReversed
      else m.colormap_reversed := by
  simp only [gatedModel]
  split <;> rfl

theorem gatedModel_vmin (st : ViewerState) (xl yl : ℚ × ℚ) (m : ModelState) :
    (gatedModel st xl yl m).vmin =
      if cVmin st m.vmin then st.vmin else m.vmin := by
  simp only [gatedModel]
  split <;> rfl

theorem gatedModel_vmax (st : ViewerState) (xl yl : ℚ × ℚ) (m : ModelState) :
    (gatedModel st xl yl m).vmax =
      if cVmax st m.vmax then st.vmax else m.vmax := by
  simp only [gatedModel]
  split <;> rfl

theorem gatedModel_sync (st : ViewerState) (xl yl : ℚ × ℚ) (m : ModelState) :
    (gatedModel st xl yl m).sync_from_viewer =
      if syncChanged st xl yl m then true else m.sync_from_viewer := by
  simp only [gatedModel]
  split <;> rfl

/-- When no condition fires, the gated model is the original model. -/
theorem gatedModel_id (st : ViewerState) (xl yl : ℚ × ℚ) (m : ModelState)
    (h : syncChanged st xl yl m = false) :
    gatedModel st xl yl m = m := by
  have hc := h
  simp only [syncChanged, Bool.or_eq_false_iff] at hc
  obtain ⟨⟨⟨h1, h2, h3⟩, h4, h5⟩, h6, h7, h8, h9⟩ := hc
  simp [gatedModel, h, h1, h2, h3, h4, h5, h6, h7, h8, h9]

theorem gatedModelNB_contrast (st : ViewerState) (m : ModelState) :
    (gatedModelNB st m).contrast =
      if cContrast st m.contrast then st.contrast else m.contrast := by
  simp only [gatedModelNB]
  split <;> rfl

theorem gatedModelNB_bias (st : ViewerState) (m : ModelState) :
    (gatedModelNB st m).bias =
      if cBias st m.bias then st.bias else m.bias := by
  simp only [gatedModelNB]
  split <;> rfl

theorem gatedModelNB_stretch (st : ViewerState) (m : ModelState) :
    (gatedModelNB st m).stretch_mode =
      if cStretch st m.stretch_mode then st.stretchMode
      else m.stretch_mode := by
  simp only [gatedModelNB]
  split <;> rfl

theorem gatedModelNB_xlim (st : ViewerState) (m : ModelState) :
    (gatedModelNB st m).xlim = m.xlim := by
  simp only [gatedModelNB]
  split <;> rfl

theorem gatedModelNB_ylim (st : ViewerState) (m : ModelState) :
    (gatedModelNB st m).ylim = m.ylim := by
  simp only [gatedModelNB]
  split <;> rfl

theorem gatedModelNB_colormap (st : ViewerState) (m : ModelState) :
    (gatedModelNB st m).colormap =
      if cColormap st m.colormap then st.colormap else m.colormap := by
  simp only [gatedModelNB]
  split <;> rfl

theorem gatedModelNB_reversed (st : ViewerState) (m : ModelState) :
    (gatedModelNB st m).colormap_reversed =
      if cReversed st m.colormap_reversed then st.colormapReversed
      else m.colormap_reversed := by
  simp only [gatedModelNB]
  split <;> rfl

theorem gatedModelNB_vmin (st : ViewerState) (m : ModelState) :
    (gatedModelNB st m).vmin =
      if cVmin st m.vmin then st.vmin else m.vmin := by
  simp only [gatedModelNB]
  split <;> rfl

theorem gatedModelNB_vmax (st : ViewerState) (m : ModelState) :
    (gatedModelNB st m).vmax =
      if cVmax st m.vmax then st.vmax else m.vmax := by
  simp only [gatedModelNB]
  split <;> rfl

theorem gatedModelNB_sync (st : ViewerState) (m : ModelState) :
    (gatedModelNB st m).sync_from_viewer =
      if syncChangedNB st m then true else m.sync_from_viewer := by
  simp only [gatedModelNB]
  split <;> rfl

/-- When no condition fires (bounds absent), the gated model is the original
model. -/
theorem gatedModelNB_id (st : ViewerState) (m : ModelState)
    (h : syncChangedNB st m = false) :
    gatedModelNB st m = m := by
  have hc := h
  simp only [syncChangedNB, Bool.or_eq_false_iff] at hc
  obtain ⟨⟨h1, h2, h3⟩, h6, h7, h8, h9⟩ := hc
  simp [gatedModelNB, h, h1, h2, h3, h6, h7, h8, h9]

theorem cContrast_eq_true (st : ViewerState) (x : ℚ) :
    cContrast st x = true ↔ |x - st.contrast| > 1/1000 := by
  simp [cContrast, mathAbs_eq_abs]

theorem cContrast_eq_false (st : ViewerState) (x : ℚ) :
    cContrast st x = false ↔ |x - st.contrast| ≤ 1/1000 := by
  simp [cContrast, mathAbs_eq_abs, not_lt]

theorem cBias_eq_true (st : ViewerState) (x : ℚ) :
    cBias st x = true ↔ |x - st.bias| > 1/1000 := by
  simp [cBias, mathAbs_eq_abs]

theorem cBias_eq_false (st : ViewerState) (x : ℚ) :
    cBias st x = false ↔ |x - st.bias| ≤ 1/1000 := by
  simp [cBias, mathAbs_eq_abs, not_lt]

theorem cStretch_eq_true (st : ViewerState) (s : String) :
    cStretch st s = true ↔ s ≠ st.stretchMode := by
  simp [cStretch]

theorem cStretch_eq_false (st : ViewerState) (s : String) :
    cStretch st s = false ↔ s = st.stretchMode := by
  simp [cStretch]

theorem cXlim_eq_true (xl p : ℚ × ℚ) :
    cXlim xl p = true ↔ |p.1 - xl.1| > 1/2 ∨ |p.2 - xl.2| > 1/2 := by
  simp [cXlim, mathAbs_eq_abs]

theorem cXlim_eq_false (xl p : ℚ × ℚ) :
    cXlim xl p = false ↔ |p.1 - xl.1| ≤ 1/2 ∧ |p.2 - xl.2| ≤ 1/2 := by
  simp [cXlim, mathAbs_eq_abs, not_lt]

theorem cYlim_eq_true (yl p : ℚ × ℚ) :
    cYlim yl p = true ↔ |p.1 - yl.1| > 1/2 ∨ |p.2 - yl.2| > 1/2 := by
  simp [cYlim, mathAbs_eq_abs]

theorem cYlim_eq_false (yl p : ℚ × ℚ) :
    cYlim yl p = false ↔ |p.1 - yl.1| ≤ 1/2 ∧ |p.2 - yl.2| ≤ 1/2 := by
  simp [cYlim, mathAbs_eq_abs, not_lt]

theorem cColormap_eq_true (st : ViewerState) (s : String) :
    cColormap st s = true ↔ s ≠ st.colormap := by
  simp [cColormap]

theorem cColormap_eq_false (st : ViewerState) (s : String) :
    cColormap st s = false ↔ s = st.colormap := by
  simp [cColormap]

theorem cReversed_eq_true (st : ViewerState) (b : Bool) :
    cReversed st b = true ↔ b ≠ st.colormapReversed := by
  simp [cReversed]

theorem cReversed_eq_false (st : ViewerState) (b : Bool) :
    cReversed st b = false ↔ b = st.colormapReversed := by
  simp [cReversed]

theorem cVmin_eq_true (st : ViewerState) (x : ℚ) :
    cVmin st x = true ↔ |x - st.vmin| > 1/10^10 := by
  simp [cVmin, mathAbs_eq_abs]

theorem cVmin_eq_false (st : ViewerState) (x : ℚ) :
    cVmin st x = false ↔ |x - st.vmin| ≤ 1/10^10 := by
  simp [cVmin, mathAbs_eq_abs, not_lt]

theorem cVmax_eq_true (st : ViewerState) (x : ℚ) :
    cVmax st x = true ↔ |x - st.vmax| > 1/10^10 := by
  simp [cVmax, mathAbs_eq_abs]

theorem cVmax_eq_false (st : ViewerState) (x : ℚ) :
    cVmax st x = false ↔ |x - st.vmax| ≤ 1/10^10 := by
  simp [cVmax, mathAbs_eq_abs, not_lt]

/-- The change disjunction holds exactly when some property exceeds its
tolerance. -/
theorem syncChanged_eq_true_iff (st : ViewerState) (xl yl : ℚ × ℚ)
    (m : ModelState) :
    syncChanged st xl yl m = true ↔
      (|m.contrast - st.contrast| > 1/1000 ∨ |m.bias - st.bias| > 1/1000 ∨
        m.stretch_mode ≠ st.stretchMode ∨
        |m.xlim.1 - xl.1| > 1/2 ∨ |m.xlim.2 - xl.2| > 1/2 ∨
        |m.ylim.1 - yl.1| > 1/2 ∨ |m.ylim.2 - yl.2| > 1/2 ∨
        m.colormap ≠ st.colormap ∨
        m.colormap_reversed ≠ st.colormapReversed ∨
        |m.vmin - st.vmin| > 1/10^10 ∨ |m.vmax - st.vmax| > 1/10^10) := by
  simp only [syncChanged, Bool.or_eq_true, cContrast_eq_true, cBias_eq_true,
    cStretch_eq_true, cXlim_eq_true, cYlim_eq_true, cColormap_eq_true,
    cReversed_eq_true, cVmin_eq_true, cVmax_eq_true]
  tauto

/-- Closed form of `handleViewerStateChange` on the proceeding path when
both bounds pairs are reported. -/
theorem handleViewerStateChange_closed (flags : SyncState)
    (st : ViewerState) (m : ModelState) (xl yl : ℚ × ℚ)
    (hr : flags.viewerReady = true) (hd : flags.isDisposed = false)
    (hg : flags.updatingFromViewer = false)
    (hx : st.xlim = some xl) (hy : st.ylim = some yl) :
    handleViewerStateChange flags st m =
      ⟨{flags with updatingFromViewer := false}, gatedModel st xl yl m,
        if syncChanged st xl yl m then 1 else 0, false⟩ := by
  unfold handleViewerStateChange handleViewerStateChangeT
  rw [hvscBody_closed st m xl yl hx hy]
  simp [hr, hd, hg]

/-- Closed form of `handleViewerStateChange` on the proceeding path when a
bounds pair is missing. -/
theorem handleViewerStateChange_closed_nb (flags : SyncState)
    (st : ViewerState) (m : ModelState)
    (hr : flags.viewerReady = true) (hd : flags.isDisposed = false)
    (hg : flags.updatingFromViewer = false)
    (h : st.xlim = none ∨ st.ylim = none) :
    handleViewerStateChange flags st m =
      ⟨{flags with updatingFromViewer := false}, gatedModelNB st m,
        if syncChangedNB st m then 1 else 0, false⟩ := by
  unfold handleViewerStateChange handleViewerStateChangeT
  rw [hvscBody_closed_nb st m h]
  simp [hr, hd, hg]

/-- C1: on a ready, non-disposed widget with the in-flight guard clear and a
reported state carrying both bounds pairs, every synchronized property whose
reported value is within its tolerance (0.001 for contrast and bias, 0.5 per
bounds coordinate, 1e-10 for vmin and vmax, exact equality for stretch mode,
colormap and colormap-reversed) is not written to the model; if no property
exceeds its tolerance there are zero model mutations and zero commits; if at
least one property exceeds its tolerance there is exactly one commit for the
whole invocation. -/
theorem C1_tolerance_gated_sync (flags : SyncState) (st : ViewerState)
    (m : ModelState) (xl yl : ℚ × ℚ)
    (hr : flags.viewerReady = true) (hd : flags.isDisposed = false)
    (hg : flags.updatingFromViewer = false)
    (hx : st.xlim = some xl) (hy : st.ylim = some yl) :
    (|m.contrast - st.contrast| ≤ 1/1000 →
      (handleViewerStateChange flags st m).model.contrast = m.contrast) ∧
    (|m.bias - st.bias| ≤ 1/1000 →
      (handleViewerStateChange flags st m).model.bias = m.bias) ∧
    (m.stretch_mode = st.stretchMode →
      (handleViewerStateChange flags st m).model.stretch_mode =
        m.stretch_mode) ∧
    (|m.xlim.1 - xl.1| ≤ 1/2 ∧ |m.xlim.2 - xl.2| ≤ 1/2 →
      (handleViewerStateChange flags st m).model.xlim = m.xlim) ∧
    (|m.ylim.1 - yl.1| ≤ 1/2 ∧ |m.ylim.2 - yl.2| ≤ 1/2 →
      (handleViewerStateChange flags st m).model.ylim = m.ylim) ∧
    (m.colormap = st.colormap →
      (handleViewerStateChange flags st m).model.colormap = m.colormap) ∧
    (m.colormap_reversed = st.colormapReversed →
      (handleViewerStateChange flags st m).model.colormap_reversed =
        m.colormap_reversed) ∧
    (|m.vmin - st.vmin| ≤ 1/10^10 →
      (handleViewerStateChange flags st m).model.vmin = m.vmin) ∧
    (|m.vmax - st.vmax| ≤ 1/10^10 →
      (handleViewerStateChange flags st m).model.vmax = m.vmax) ∧
    (|m.contrast - st.contrast| ≤ 1/1000 → |m.bias - st.bias| ≤ 1/1000 →
      m.stretch_mode = st.stretchMode →
      |m.xlim.1 - xl.1| ≤ 1/2 → |m.xlim.2 - xl.2| ≤ 1/2 →
      |m.ylim.1 - yl.1| ≤ 1/2 → |m.ylim.2 - yl.2| ≤ 1/2 →
      m.colormap = st.colormap → m.colormap_reversed = st.colormapReversed →
      |m.vmin - st.vmin| ≤ 1/10^10 → |m.vmax - st.vmax| ≤ 1/10^10 →
      (handleViewerStateChange flags st m).model = m ∧
      (handleViewerStateChange flags st m).commits = 0) ∧
    ((|m.contrast - st.contrast| > 1/1000 ∨ |m.bias - st.bias| > 1/1000 ∨
      m.stretch_mode ≠ st.stretchMode ∨
      |m.xlim.1 - xl.1| > 1/2 ∨ |m.xlim.2 - xl.2| > 1/2 ∨
      |m.ylim.1 - yl.1| > 1/2 ∨ |m.ylim.2 - yl.2| > 1/2 ∨
      m.colormap ≠ st.colormap ∨ m.colormap_reversed ≠ st.colormapReversed ∨
      |m.vmin - st.vmin| > 1/10^10 ∨ |m.vmax - st.vmax| > 1/10^10) →
      (handleViewerStateChange flags st m).commits = 1) := by
  rw [handleViewerStateChange_closed flags st m xl yl hr hd hg hx hy]
  dsimp only
  refine ⟨?_, ?_, ?_, ?_, ?_, ?_, ?_, ?_, ?_, ?_, ?_⟩
  · intro h
    rw [gatedModel_contrast, (cContrast_eq_false st m.contrast).mpr h]
    rfl
  · intro h
    rw [gatedModel_bias, (cBias_eq_false st m.bias).mpr h]
    rfl
  · intro h
    rw [gatedModel_stretch, (cStretch_eq_false st m.stretch_mode).mpr h]
    rfl
  · intro h
    rw [gatedModel_xlim, (cXlim_eq_false xl m.xlim).mpr h]
    rfl
  · intro h
    rw [gatedModel_ylim, (cYlim_eq_false yl m.ylim).mpr h]
    rfl
  · intro h
    rw [gatedModel_colormap, (cColormap_eq_false st m.colormap).mpr h]
    rfl
  · intro h
    rw [gatedModel_reversed,
      (cReversed_eq_false st m.colormap_reversed).mpr h]
    rfl
  · intro h
    rw [gatedModel_vmin, (cVmin_eq_false st m.vmin).mpr h]
    rfl
  · intro h
    rw [gatedModel_vmax, (cVmax_eq_false st m.vmax).mpr h]
    rfl
  · intro h1 h2 h3 hx1 hx2 hy1 hy2 h6 h7 h8 h9
    have hsc : syncChanged st xl yl m = false := by
      simp only [syncChanged, Bool.or_eq_false_iff]
      exact ⟨⟨⟨(cContrast_eq_false _ _).mpr h1, (cBias_eq_false _ _).mpr h2,
        (cStretch_eq_false _ _).mpr h3⟩,
        (cXlim_eq_false _ _).mpr ⟨hx1, hx2⟩,
        (cYlim_eq_false _ _).mpr ⟨hy1, hy2⟩⟩,
        (cColormap_eq_false _ _).mpr h6, (cReversed_eq_false _ _).mpr h7,
        (cVmin_eq_false _ _).mpr h8, (cVmax_eq_false _ _).mpr h9⟩
    exact ⟨gatedModel_id st xl yl m hsc, by rw [hsc]; rfl⟩
  · intro h
    rw [(syncChanged_eq_true_iff st xl yl m).mpr h]
    rfl

/-- C1 witness: at a concrete ready state, a contrast within tolerance is
not written while a differing stretch mode forces exactly one commit. -/
theorem C1_witness :
    (handleViewerStateChange ⟨true, false, false⟩ stEx mEx).model.contrast =
      mEx.contrast ∧
    (handleViewerStateChange ⟨true, false, false⟩ stEx mEx).commits = 1 := by
  have h := C1_tolerance_gated_sync ⟨true, false, false⟩ stEx mEx
    (0, 100) (0, 100) rfl rfl rfl rfl rfl
  refine ⟨h.1 ?_, (h.2.2.2.2.2.2.2.2.2.2)
    (Or.inr (Or.inr (Or.inl ?_))) ⟩
  · norm_num [mEx, stEx]
  · decide

/-- C10: when the reported state omits a bounds pair (`xlim` or `ylim`
absent), neither bounds pair is written to the model no matter how far they
differ, while every other synchronized property is still compared and
written as usual. -/
theorem C10_absent_bounds_skip (flags : SyncState) (st : ViewerState)
    (m : ModelState)
    (hr : flags.viewerReady = true) (hd : flags.isDisposed = false)
    (hg : flags.updatingFromViewer = false)
    (h : st.xlim = none ∨ st.ylim = none) :
    (handleViewerStateChange flags st m).model.xlim = m.xlim ∧
    (handleViewerStateChange flags st m).model.ylim = m.ylim ∧
    (handleViewerStateChange flags st m).model.contrast =
      (if |m.contrast - st.contrast| > 1/1000 then st.contrast
       else m.contrast) ∧
    (handleViewerStateChange flags st m).model.bias =
      (if |m.bias - st.bias| > 1/1000 then st.bias else m.bias) ∧
    (handleViewerStateChange flags st m).model.stretch_mode =
      (if m.stretch_mode ≠ st.stretchMode then st.stretchMode
       else m.stretch_mode) ∧
    (handleViewerStateChange flags st m).model.colormap =
      (if m.colormap ≠ st.colormap then st.colormap else m.colormap) ∧
    (handleViewerStateChange flags st m).model.colormap_reversed =
      (if m.colormap_reversed ≠ st.colormapReversed then st.colormapReversed
       else m.colormap_reversed) ∧
    (handleViewerStateChange flags st m).model.vmin =
      (if |m.vmin - st.vmin| > 1/10^10 then st.vmin else m.vmin) ∧
    (handleViewerStateChange flags st m).model.vmax =
      (if |m.vmax - st.vmax| > 1/10^10 then st.vmax else m.vmax) := by
  rw [handleViewerStateChange_closed_nb flags st m hr hd hg h]
  dsimp only
  refine ⟨gatedModelNB_xlim st m, gatedModelNB_ylim st m, ?_, ?_, ?_, ?_,
    ?_, ?_, ?_⟩
  · rw [gatedModelNB_contrast]
    simp only [cContrast, decide_eq_true_eq, mathAbs_eq_abs]
  · rw [gatedModelNB_bias]
    simp only [cBias, decide_eq_true_eq, mathAbs_eq_abs]
  · rw [gatedModelNB_stretch]
    simp only [cStretch, bne_iff_ne, ne_eq]
  · rw [gatedModelNB_colormap]
    simp only [cColormap, bne_iff_ne, ne_eq]
  · rw [gatedModelNB_reversed]
    simp only [cReversed, bne_iff_ne, ne_eq]
  · rw [gatedModelNB_vmin]
    simp only [cVmin, decide_eq_true_eq, mathAbs_eq_abs]
  · rw [gatedModelNB_vmax]
    simp only [cVmax, decide_eq_true_eq, mathAbs_eq_abs]

/-- C10 witness: with `xlim` absent from the reported state, the model
bounds survive the sync unchanged. -/
theorem C10_witness :
    (handleViewerStateChange ⟨true, false, false⟩ stExNB mEx).model.xlim =
      mEx.xlim ∧
    (handleViewerStateChange ⟨true, false, false⟩ stExNB mEx).model.ylim =
      mEx.ylim := by
  have h := C10_absent_bounds_skip ⟨true, false, false⟩ stExNB mEx
    rfl rfl rfl (Or.inl rfl)
  exact ⟨h.1, h.2.1⟩

/-- If a sync invocation committed, the resulting model carries the echo
marker. -/
theorem handleViewerStateChange_commit_echo (flags : SyncState)
    (st : ViewerState) (m : ModelState)
    (h : (handleViewerStateChange flags st m).commits ≠ 0) :
    (handleViewerStateChange flags st m).model.sync_from_viewer = true := by
  by_cases hr : flags.viewerReady = true
  case neg =>
    simp only [Bool.not_eq_true] at hr
    refine absurd ?_ h
    unfold handleViewerStateChange handleViewerStateChangeT
    simp [hr]
  by_cases hd : flags.isDisposed = false
  case neg =>
    simp only [Bool.not_eq_false] at hd
    refine absurd ?_ h
    unfold handleViewerStateChange handleViewerStateChangeT
    simp [hd]
  by_cases hg : flags.updatingFromViewer = false
  case neg =>
    simp only [Bool.not_eq_false] at hg
    refine absurd ?_ h
    unfold handleViewerStateChange handleViewerStateChangeT
    simp [hg]
  rcases hx : st.xlim with _ | xl
  · rw [handleViewerStateChange_closed_nb flags st m hr hd hg (Or.inl hx)]
      at h ⊢
    dsimp only at h ⊢
    by_cases hc : syncChangedNB st m = true
    · rw [gatedModelNB_sync, hc]
      rfl
    · simp only [Bool.not_eq_true] at hc
      rw [hc] at h
      exact absurd rfl h
  · rcases hy : st.ylim with _ | yl
    · rw [handleViewerStateChange_closed_nb flags st m hr hd hg (Or.inr hy)]
        at h ⊢
      dsimp only at h ⊢
      by_cases hc : syncChangedNB st m = true
      · rw [gatedModelNB_sync, hc]
        rfl
      · simp only [Bool.not_eq_true] at hc
        rw [hc] at h
        exact absurd rfl h
    · rw [handleViewerStateChange_closed flags st m xl yl hr hd hg hx hy]
        at h ⊢
      dsimp only at h ⊢
      by_cases hc : syncChanged st xl yl m = true
      · rw [gatedModel_sync, hc]
        rfl
      · simp only [Bool.not_eq_true] at hc
        rw [hc] at h
        exact absurd rfl h

/-- C2: a Model→Viewer change firing while the echo marker is set (or while
the in-flight guard is true) resets the echo marker and performs no push at
all; consequently a Viewer→Model batch that committed (and hence set the
echo marker) never causes `applyModelToViewer` to push back to the
viewer. -/
theorem C2_echo_marker_guard (flags flagsB : SyncState)
    (st : ViewerState) (m mB : ModelState) :
    (flags.updatingFromViewer = true ∨ m.sync_from_viewer = true →
      handlePropertyChange flags m =
        ({m with sync_from_viewer := false}, [])) ∧
    ((handleViewerStateChange flagsB st mB).commits ≠ 0 →
      (handlePropertyChange flags
        ((handleViewerStateChange flagsB st mB).model)).2 = []) := by
  constructor
  · intro h
    unfold handlePropertyChange
    rcases h with h | h <;> rw [h] <;> simp
  · intro h
    have hs := handleViewerStateChange_commit_echo flagsB st mB h
    unfold handlePropertyChange
    rw [hs]
    simp

/-- C2 witness: with the in-flight guard set at a concrete state, the
handler resets the echo marker and pushes nothing. -/
theorem C2_witness :
    handlePropertyChange ⟨true, false, true⟩ mEx =
      ({mEx with sync_from_viewer := false}, []) :=
  (C2_echo_marker_guard ⟨true, false, true⟩ ⟨true, false, false⟩
    stEx mEx mEx).1 (Or.inl rfl)

/-- C3 counterexample: the claim says every synchronized property (colormap
included) is pushed by `applyModelToViewer`; at a concrete ready,
non-disposed state the colormap's current model value is never pushed. -/
theorem C3_counterexample :
    PushOp.colormap mEx.colormap ∉
      applyModelToViewer ⟨true, false, false⟩ mEx := by
  norm_num [applyModelToViewer, mEx]
  refine ⟨?_, ?_, ?_, ?_⟩ <;> simp

/-- C3 (amended): `applyModelToViewer` on a ready, non-disposed widget
pushes exactly contrast, bias and stretch mode, plus the bounds when both
pairs are non-degenerate; colormap, colormap-reversed and value-range are
never pushed Model→Viewer. -/
theorem C3_push_set (flags : SyncState) (m : ModelState)
    (hr : flags.viewerReady = true) (hd : flags.isDisposed = false) :
    applyModelToViewer flags m =
      [PushOp.contrast m.contrast, PushOp.bias m.bias,
        PushOp.stretchMode m.stretch_mode] ++
      (if m.xlim.1 ≠ m.xlim.2 ∧ m.ylim.1 ≠ m.ylim.2 then
        [PushOp.viewBounds m.xlim.1 m.xlim.2 m.ylim.1 m.ylim.2]
      else []) ∧
    (∀ c, PushOp.colormap c ∉ applyModelToViewer flags m) ∧
    (∀ b, PushOp.colormapReversed b ∉ applyModelToViewer flags m) ∧
    (∀ lo hi, PushOp.valueRange lo hi ∉ applyModelToViewer flags m) := by
  unfold applyModelToViewer
  rw [hr, hd]
  refine ⟨rfl, fun c => ?_, fun b => ?_, fun lo hi => ?_⟩ <;>
    split <;> simp

/-- C3 witness: the amended push-set characterization at a concrete ready
state. -/
theorem C3_witness :
    applyModelToViewer ⟨true, false, false⟩ mEx =
      [PushOp.contrast mEx.contrast, PushOp.bias mEx.bias,
        PushOp.stretchMode mEx.stretch_mode] ++
      (if mEx.xlim.1 ≠ mEx.xlim.2 ∧ mEx.ylim.1 ≠ mEx.ylim.2 then
        [PushOp.viewBounds mEx.xlim.1 mEx.xlim.2 mEx.ylim.1 mEx.ylim.2]
      else []) :=
  (C3_push_set ⟨true, false, false⟩ mEx rfl rfl).1

/-- C4: the bounds push happens exactly when both pairs are non-degenerate;
if either pair is degenerate no `setViewBounds` call is made at all, even
when the other pair differs from the viewer. -/
theorem C4_degenerate_bounds_suppression (flags : SyncState) (m : ModelState)
    (hr : flags.viewerReady = true) (hd : flags.isDisposed = false) :
    (PushOp.viewBounds m.xlim.1 m.xlim.2 m.ylim.1 m.ylim.2 ∈
        applyModelToViewer flags m ↔
      m.xlim.1 ≠ m.xlim.2 ∧ m.ylim.1 ≠ m.ylim.2) ∧
    ((m.xlim.1 = m.xlim.2 ∨ m.ylim.1 = m.ylim.2) →
      ∀ a b c d, PushOp.viewBounds a b c d ∉ applyModelToViewer flags m) := by
  unfold applyModelToViewer
  rw [hr, hd]
  constructor
  · by_cases hb : m.xlim.1 ≠ m.xlim.2 ∧ m.ylim.1 ≠ m.ylim.2 <;> simp [hb]
  · intro h a b c d
    have hb : ¬(m.xlim.1 ≠ m.xlim.2 ∧ m.ylim.1 ≠ m.ylim.2) := by tauto
    simp [hb]

/-- C4 witness: at a concrete state with non-degenerate bounds the
`setViewBounds` call is present. -/
theorem C4_witness :
    PushOp.viewBounds mEx.xlim.1 mEx.xlim.2 mEx.ylim.1 mEx.ylim.2 ∈
      applyModelToViewer ⟨true, false, false⟩ mEx :=
  (C4_degenerate_bounds_suppression ⟨true, false, false⟩ mEx rfl rfl).1.mpr
    ⟨by norm_num [mEx], by norm_num [mEx]⟩

/-- Setting then reading the same list position yields the written value. -/
theorem getD_set_self (l : List ℤ) (n : ℕ) (v : ℤ) (h : n < l.length) :
    (l.set n v).getD n 0 = v := by
  rw [List.getD_eq_getElem?_getD, List.getElem?_set_self (by simpa using h)]
  rfl

/-- C5: slice navigation wraps (direction −1 from index 0 yields size − 1,
direction +1 from the last index yields 0, otherwise the index moves by the
direction); on an axis of size 1 the invocation neither mutates the index
vector nor commits, and otherwise it replaces the full vector and commits
exactly once. -/
theorem C5_navigate_slice_wrap (shape indices : List ℤ) (axis : ℕ)
    (delta s i : ℤ)
    (hax : axis < indices.length)
    (hs : shape.getD axis 0 = s) (hs1 : 1 ≤ s)
    (hi : indices.getD axis 0 = i) (hi0 : 0 ≤ i) (his : i < s)
    (hdel : delta = -1 ∨ delta = 1) :
    (delta = -1 → i = 0 →
      (navigateSlice shape indices axis delta).1.getD axis 0 = s - 1) ∧
    (delta = 1 → i = s - 1 →
      (navigateSlice shape indices axis delta).1.getD axis 0 = 0) ∧
    (delta = -1 → 0 < i →
      (navigateSlice shape indices axis delta).1.getD axis 0 = i - 1 ∧
      (navigateSlice shape indices axis delta).2 = true) ∧
    (delta = 1 → i < s - 1 →
      (navigateSlice shape indices axis delta).1.getD axis 0 = i + 1 ∧
      (navigateSlice shape indices axis delta).2 = true) ∧
    (s = 1 → navigateSlice shape indices axis delta = (indices, false)) ∧
    (s ≠ 1 →
      (navigateSlice shape indices axis delta).2 = true ∧
      (navigateSlice shape indices axis delta).1 =
        indices.set axis
          (if i + delta < 0 then s - 1
           else if i + delta ≥ s then 0 else i + delta)) := by
  have key : navigateSlice shape indices axis delta =
      (if (if i + delta < 0 then s - 1
            else if i + delta ≥ s then 0 else i + delta) ≠ i then
        (indices.set axis
          (if i + delta < 0 then s - 1
           else if i + delta ≥ s then 0 else i + delta), true)
      else (indices, false)) := by
    unfold navigateSlice
    rw [hs, hi]
  refine ⟨?_, ?_, ?_, ?_, ?_, ?_⟩
  · rintro rfl rfl
    rw [key]
    by_cases hone : s = 1
    · rw [if_neg (by omega)]
      dsimp only
      rw [hi]
      omega
    · rw [if_pos (by omega)]
      dsimp only
      rw [if_pos (by omega), getD_set_self indices axis _ hax]
  · rintro rfl rfl
    rw [key]
    by_cases hone : s = 1
    · rw [if_neg (by omega)]
      dsimp only
      rw [hi]
      omega
    · rw [if_pos (by omega)]
      dsimp only
      rw [if_neg (by omega), if_pos (by omega),
        getD_set_self indices axis _ hax]
  · rintro rfl hpos
    rw [key, if_pos (by omega)]
    dsimp only
    rw [if_neg (by omega), if_neg (by omega),
      getD_set_self indices axis _ hax]
    exact ⟨by omega, rfl⟩
  · rintro rfl hlt
    rw [key, if_pos (by omega)]
    dsimp only
    rw [if_neg (by omega), if_neg (by omega),
      getD_set_self indices axis _ hax]
    exact ⟨rfl, rfl⟩
  · rintro rfl
    have hizero : i = 0 := by omega
    subst hizero
    rcases hdel with rfl | rfl
    · rw [key]
      rw [if_neg (by omega)]
    · rw [key]
      rw [if_neg (by omega)]
  · intro hone
    have hne : (if i + delta < 0 then s - 1
        else if i + delta ≥ s then 0 else i + delta) ≠ i := by
      rcases hdel with rfl | rfl <;> split_ifs <;> omega
    rw [key, if_pos hne]
    exact ⟨rfl, rfl⟩

/-- C5 witness: wrapping backwards from index 0 on an axis of size 5 lands
on index 4, and navigation on an axis of size 1 is a committed no-op. -/
theorem C5_witness :
    (navigateSlice [5, 64, 64] [0] 0 (-1)).1.getD 0 0 = 5 - 1 ∧
    navigateSlice [1, 64, 64] [0] 0 1 = ([0], false) := by
  constructor
  · exact (C5_navigate_slice_wrap [5, 64, 64] [0] 0 (-1) 5 0
      (by decide) (by decide) (by decide) (by decide) (by decide) (by decide)
      (Or.inl rfl)).1 rfl rfl
  · exact (C5_navigate_slice_wrap [1, 64, 64] [0] 0 1 1 0
      (by decide) (by decide) (by decide) (by decide) (by decide) (by decide)
      (Or.inr rfl)).2.2.2.2.1 rfl

/-- C6: on a ready, non-disposed widget the image pump is a strict no-op
when the dirty flag is clear; when the dirty flag is set it is cleared
immediately and unconditionally, and `setImageData` is invoked exactly when
the buffer is present with positive byte length and both dimensions are
positive. -/
theorem C6_image_pump_contract (flags : SyncState) (m : ModelState)
    (hr : flags.viewerReady = true) (hd : flags.isDisposed = false) :
    (m.needs_repaint = false → updateImage flags m = (m, none)) ∧
    (m.needs_repaint = true →
      (updateImage flags m).1 = {m with needs_repaint := false} ∧
      ((updateImage flags m).2 ≠ none ↔
        ∃ len, m.data = some len ∧ 0 < len ∧ 0 < m.image_width ∧
          0 < m.image_height)) := by
  constructor
  · intro h
    simp [updateImage, hr, hd, h]
  · intro h
    refine ⟨?_, ?_⟩ <;>
      rcases hdata : m.data with _ | len
    · simp [updateImage, hr, hd, h, hdata]
    · by_cases hcond : 0 < len ∧ 0 < m.image_width ∧ 0 < m.image_height <;>
        simp [updateImage, hr, hd, h, hdata, hcond]
    · simp [updateImage, hr, hd, h, hdata]
    · by_cases hcond : 0 < len ∧ 0 < m.image_width ∧ 0 < m.image_height <;>
        simp [updateImage, hr, hd, h, hdata, hcond]

/-- C6 witness: the specification scenario — dirty flag set, buffer length
4, width 0, height 1 — clears the flag and never invokes `setImageData`. -/
theorem C6_witness :
    (updateImage ⟨true, false, false⟩ m6).1 =
      {m6 with needs_repaint := false} ∧
    (updateImage ⟨true, false, false⟩ m6).2 = none := by
  have h := (C6_image_pump_contract ⟨true, false, false⟩ m6 rfl rfl).2 rfl
  refine ⟨h.1, ?_⟩
  by_contra hne
  obtain ⟨len, _, _, hw, _⟩ := h.2.mp hne
  exact absurd hw (by decide)

/-- One lifecycle step preserves disposal and, once disposed, never changes
the readiness flag. -/
theorem lifeStep_disposed (s : LifeState) (e : LifeEvent)
    (h : s.isDisposed = true) :
    (lifeStep s e).isDisposed = true ∧
    (lifeStep s e).viewerReady = s.viewerReady := by
  cases e <;> rcases hp : s.phase <;> simp [lifeStep, hp, h]

/-- Once disposed, a run of the attach/create chain stays disposed and
never changes the readiness flag. -/
theorem lifeRun_disposed (evs : List LifeEvent) (s : LifeState)
    (h : s.isDisposed = true) :
    (lifeRun s evs).isDisposed = true ∧
    (lifeRun s evs).viewerReady = s.viewerReady := by
  induction evs generalizing s with
  | nil => exact ⟨h, rfl⟩
  | cons e es ih =>
      obtain ⟨h1, h2⟩ := lifeStep_disposed s e h
      obtain ⟨h3, h4⟩ := ih (lifeStep s e) h1
      exact ⟨h3, h4.trans h2⟩

/-- C7: once the disposed flag is set while readiness is still false, no
continuation of the attach/create chain ever sets readiness; and a
non-ready widget pushes nothing to the viewer and forwards no image. -/
theorem C7_disposal_blocks_readiness (s : LifeState) (evs : List LifeEvent)
    (flags : SyncState) (m : ModelState)
    (hdis : s.isDisposed = true) (hnr : s.viewerReady = false) :
    (lifeRun s evs).viewerReady = false ∧
    (lifeRun s evs).isDisposed = true ∧
    (flags.viewerReady = false → applyModelToViewer flags m = []) ∧
    (flags.viewerReady = false → updateImage flags m = (m, none)) := by
  obtain ⟨h1, h2⟩ := lifeRun_disposed evs s hdis
  refine ⟨h2.trans hnr, h1, ?_, ?_⟩
  · intro hf
    unfold applyModelToViewer
    rw [hf]
    rfl
  · intro hf
    unfold updateImage
    rw [hf]
    rfl

/-- C7 witness: disposal while viewer creation is in flight prevents the
`createResolved` continuation from ever setting readiness. -/
theorem C7_witness :
    (lifeRun ⟨LifePhase.creating, false, true⟩
      [LifeEvent.createResolved]).viewerReady = false :=
  (C7_disposal_blocks_readiness ⟨LifePhase.creating, false, true⟩
    [LifeEvent.createResolved] ⟨false, false, false⟩ mEx rfl rfl).1

/-- C8 counterexample: the claim says a second dispose on an already
disposed instance performs no additional destruction; on a ready widget the
second invocation of the cleanup closure calls `destroyViewer` again. -/
theorem C8_counterexample :
    (dispose (dispose d0)).destroys ≠ (dispose d0).destroys := by decide

/-- C8 (amended): dispose always sets the disposed flag; on a widget that
reached readiness the first call clears callbacks and destroys the viewer
exactly once, but a second call destroys again (the cleanup guards only on
`viewerReady`, never on `isDisposed`); on a never-ready widget nothing is
cleared or destroyed. -/
theorem C8_dispose_effects (s : DisposeLog) :
    (dispose s).flags.isDisposed = true ∧
    (s.flags.viewerReady = true →
      (dispose s).clears = s.clears + 1 ∧
      (dispose s).destroys = s.destroys + 1 ∧
      (dispose (dispose s)).destroys = s.destroys + 2) ∧
    (s.flags.viewerReady = false →
      (dispose s).clears = s.clears ∧
      (dispose s).destroys = s.destroys) := by
  by_cases hv : s.flags.viewerReady = true
  · simp [dispose, hv]
  · simp only [Bool.not_eq_true] at hv
    simp [dispose, hv]

/-- C8 witness: on the concrete ready state the first dispose destroys once
and a second dispose destroys a second time. -/
theorem C8_witness :
    (dispose d0).destroys = d0.destroys + 1 ∧
    (dispose (dispose d0)).destroys = d0.destroys + 2 :=
  ⟨((C8_dispose_effects d0).2.1 rfl).2.1, ((C8_dispose_effects d0).2.1 rfl).2.2⟩

/-- C9: the Viewer→Model handler is a strict no-op (no flag, model or
commit effect) when the widget is not ready, is disposed, or the in-flight
guard is already set; and on every proceeding invocation — for every throw
oracle over the `model.set` calls — the guard is false again on exit. -/
theorem C9_guard_discipline (flags : SyncState) (st : ViewerState)
    (m : ModelState) (throws : ℕ → Bool) :
    ((flags.viewerReady = false ∨ flags.isDisposed = true ∨
        flags.updatingFromViewer = true) →
      handleViewerStateChangeT throws flags st m = ⟨flags, m, 0, false⟩) ∧
    (flags.viewerReady = true → flags.isDisposed = false →
      flags.updatingFromViewer = false →
      (handleViewerStateChangeT throws flags st m).flags.updatingFromViewer =
        false) := by
  constructor
  · intro h
    unfold handleViewerStateChangeT
    rcases h with h | h | h <;> rw [h] <;> simp
  · intro hr hd hg
    unfold handleViewerStateChangeT
    rw [hr, hd, hg]
    dsimp only
    rcases hB : hvscBody throws st m with mm | ⟨mm, c⟩ <;> rfl

/-- C9 witness: a no-op invocation with the guard already set, and a
proceeding invocation whose every `model.set` throws, both leave the guard
clear on exit. -/
theorem C9_witness :
    handleViewerStateChangeT (fun _ => true) ⟨true, false, true⟩ stEx mEx =
      ⟨⟨true, false, true⟩, mEx, 0, false⟩ ∧
    (handleViewerStateChangeT (fun _ => true) ⟨true, false, false⟩ stEx
      mEx).flags.updatingFromViewer = false :=
  ⟨(C9_guard_discipline ⟨true, false, true⟩ stEx mEx (fun _ => true)).1
      (Or.inr (Or.inr rfl)),
    (C9_guard_discipline ⟨true, false, false⟩ stEx mEx (fun _ => true)).2
      rfl rfl rfl⟩
